import Mathlib

/-!
Shallow embedding of `src/js/protocols/CapacitorSerial.js`
(class `CapacitorSerialProtocol`).

The class owns a device registry (`this.ports`), a connection state
(`isOpen`, `connectionId`, `port`, byte counters) and emits DOM events.
JavaScript particulars modelled explicitly:

* `this.ports` may contain `null` (because `handleNewDevice` pushes the
  result of `createPort` unconditionally, and `createPort` returns `null`
  on a duplicate), so registry entries are `Option Port`.
* `Array.prototype.some` with predicate `p => p.vendorId === vid && ...`
  throws a `TypeError` when it reaches a `null` entry; this is modelled
  with `Except Unit` (`.error ()` = thrown exception).
* The transport (`Serial` from the capacitor plugin) is external; its
  outcomes are parameters: success/failure of `openConnection`, `write`,
  `unregisterReadCallback`, `closeConnection`, and per-candidate outcomes
  of `requestSerialPermissions`.  `registerReadCallback` reports read
  errors through the callback's `error` argument (handled in the source at
  lines 98-106), not by rejecting, so registration itself is modelled as
  succeeding.
* The vendor-name table `vendorIdNames` and the whitelist `serialDevices`
  are imported from `./devices` (an external collaborator per the spec);
  they are parameters (`vn : Nat → Option String`, `wl : List (Nat × Nat)`).
  JS truthiness of `vendorIdNames[vid] ? ... : ...` means an empty-string
  entry also selects the fallback label.
-/

namespace CapacitorSerial

/-- A port descriptor, as built by `createPort`. -/
structure Port where
  path : String
  displayName : String
  vendorId : Nat
  productId : Nat
deriving Repr, DecidableEq

/-- The mutable fields of `CapacitorSerialProtocol` (constructor, lines 7-27).
`port` is only ever assigned `null` in the source, but is kept as a field.
`receiveListener` records whether `handleReceiveBytes` is registered as a
"receive" listener (line 95); `readCallback` records whether the transport
read callback is registered (lines 98-106 / 158). -/
structure ProtocolState where
  connected : Bool
  bytesSent : Nat
  bytesReceived : Nat
  isOpen : Bool
  port : Option Port
  ports : List (Option Port)
  connectionId : Option String
  reading : Bool
  receiveListener : Bool
  readCallback : Bool
deriving Repr, DecidableEq

/-- The state right after the constructor's field initialisers (lines 10-20).
(The constructor then fires `loadDevices()`, which touches only `ports`.) -/
def initState : ProtocolState where
  connected := false
  bytesSent := 0
  bytesReceived := 0
  isOpen := false
  port := none
  ports := []
  connectionId := none
  reading := false
  receiveListener := false
  readCallback := false

/-- Errors thrown by the transport layer (opaque to the controller; the
controller only stores or wraps them). -/
inductive JsError where
  | sample (tag : Nat)
deriving Repr, DecidableEq

/-- The `Error("Failed to close serial port", { cause })` built at line 168. -/
structure WrappedError where
  message : String
  cause : JsError
deriving Repr, DecidableEq

/-- Events dispatched via `dispatchEvent(new CustomEvent(...))`.
`receive` carries the payload's byte length (the payload itself is opaque
transport data). -/
inductive Event where
  | addedDevice (p : Option Port)
  | removedDevice (p : Port)
  | connectEv (ok : Bool)
  | disconnectEv (b : Bool)
  | receive (byteLength : Nat)
deriving Repr, DecidableEq

/-- `this.ports.some((p) => p.vendorId === vid && p.productId === pid)`
(lines 47 and 126): scans in order; reaching a `null` entry before a match
throws a `TypeError` (`.error ()`), since `p.vendorId` dereferences `null`. -/
def someMatch (vid pid : Nat) : List (Option Port) → Except Unit Bool
  | [] => .ok false
  | none :: _ => .error ()
  | some p :: rest =>
    if p.vendorId = vid ∧ p.productId = pid then .ok true
    else someMatch vid pid rest

/-- The template literal of line 50, the fallback display label. -/
def vidPidLabel (vid pid : Nat) : String :=
  "VID:" ++ toString vid ++ " PID:" ++ toString pid

/-- The object literal of lines 52-57: the descriptor `createPort` builds
when the pair is new.  `vn` is the `vendorIdNames` table; the JS
conditional `vendorIdNames[vid] ? vendorIdNames[vid] : fallback` (line 50)
treats a missing or empty-string entry as falsy. -/
def newPort (vn : Nat → Option String) (vid pid : Nat) : Port where
  path := "serial"
  displayName := "Betaflight " ++
    (match vn vid with
     | some n => if n = "" then vidPidLabel vid pid else n
     | none => vidPidLabel vid pid)
  vendorId := vid
  productId := pid

/-- `createPort(vid, pid)` (lines 45-58): returns `null` on a duplicate,
otherwise builds the descriptor. -/
def createPort (vn : Nat → Option String) (vid pid : Nat)
    (ports : List (Option Port)) : Except Unit (Option Port) :=
  match someMatch vid pid ports with
  | .error e => .error e
  | .ok true => .ok none
  | .ok false => .ok (some (newPort vn vid pid))

/-- `handleNewDevice(vid, pid)` (lines 38-43): unconditionally pushes the
result of `createPort` (even when it is `null`) and dispatches an
"addedDevice" event carrying it.  An exception from `createPort` propagates
before any mutation. -/
def handleNewDevice (vn : Nat → Option String) (vid pid : Nat)
    (ports : List (Option Port)) :
    Except Unit (List (Option Port) × List Event × Option Port) :=
  match createPort vn vid pid ports with
  | .error e => .error e
  | .ok added => .ok (ports ++ [added], [Event.addedDevice added], added)

/-- `handleDeviceRemoval(vid, pid)` (lines 60-67): linear scan for the first
matching entry; remove it and emit "removedDevice", else no-op.
(`findIndex`'s predicate also dereferences `p.vendorId`, throwing on `null`.) -/
def handleDeviceRemoval (vid pid : Nat) :
    List (Option Port) → Except Unit (List (Option Port) × List Event)
  | [] => .ok ([], [])
  | none :: _ => .error ()
  | some p :: rest =>
    if p.vendorId = vid ∧ p.productId = pid then
      .ok (rest, [Event.removedDevice p])
    else
      match handleDeviceRemoval vid pid rest with
      | .error e => .error e
      | .ok (rest', evs) => .ok (some p :: rest', evs)

/-- Outcome of one `Serial.requestSerialPermissions` call: the promise
rejects (`throws`), or resolves with `granted` true or false. -/
inductive PermOutcome where
  | throws
  | granted
  | denied
deriving Repr, DecidableEq

/-- Marks candidate `i` as probed when the loop below continues past it. -/
def consProbe (i : Nat)
    (out : List (Option Port) × List Event × List Nat × Bool) :
    List (Option Port) × List Event × List Nat × Bool :=
  (out.1, out.2.1, i :: out.2.2.1, out.2.2.2)

/-- The `for ... of serialDevices` loop of `requestPermissionDevice`
(lines 117-138).  `perm i` is the transport's outcome for the candidate at
absolute position `i` of the whitelist; `i` is the position of the current
head.  Returns the new registry, the dispatched events, the list of
positions actually probed, and the boolean returned to the caller.

Faithful details: a rejected permission request is swallowed by the
`catch` and the loop continues; when `granted`, the `exists` check
(line 126) runs inside the same `try`, so a `TypeError` from a `null`
registry entry is also swallowed and the loop continues; a granted
candidate returns `true` whether or not it was already registered. -/
def requestPermLoop (vn : Nat → Option String) (perm : Nat → PermOutcome) :
    List (Nat × Nat) → Nat → List (Option Port) →
    List (Option Port) × List Event × List Nat × Bool
  | [], _, ports => (ports, [], [], false)
  | (vid, pid) :: rest, i, ports =>
    match perm i with
    | .granted =>
      match someMatch vid pid ports with
      | .error _ => consProbe i (requestPermLoop vn perm rest (i + 1) ports)
      | .ok true => (ports, [], [i], true)
      | .ok false =>
        match handleNewDevice vn vid pid ports with
        | .error _ => consProbe i (requestPermLoop vn perm rest (i + 1) ports)
        | .ok (ports', evs, _) => (ports', evs, [i], true)
    | _ => consProbe i (requestPermLoop vn perm rest (i + 1) ports)

/-- `requestPermissionDevice()` (lines 117-138), started at the head of the
whitelist. -/
def requestPermissionDevice (vn : Nat → Option String) (perm : Nat → PermOutcome)
    (wl : List (Nat × Nat)) (ports : List (Option Port)) :
    List (Option Port) × List Event × List Nat × Bool :=
  requestPermLoop vn perm wl 0 ports

/-- `loadDevices()` (lines 69-76): returns the cached registry when
non-empty, otherwise runs the permission negotiator.  The extra boolean
records whether `requestPermissionDevice` was invoked. -/
def loadDevices (vn : Nat → Option String) (perm : Nat → PermOutcome)
    (wl : List (Nat × Nat)) (ports : List (Option Port)) :
    List (Option Port) × List Event × Bool :=
  if 0 < ports.length then (ports, [], false)
  else
    let (ports', evs, _, _) := requestPermissionDevice vn perm wl ports
    (ports', evs, true)

/-- `getDevices()` (lines 78-81): awaits `loadDevices`, then returns
`this.ports` (the registry after the load).  Output: updated registry,
events, whether the negotiator ran, and the list returned to the caller. -/
def getDevices (vn : Nat → Option String) (perm : Nat → PermOutcome)
    (wl : List (Nat × Nat)) (ports : List (Option Port)) :
    List (Option Port) × List Event × Bool × List (Option Port) :=
  let (ports', evs, invoked) := loadDevices vn perm wl ports
  (ports', evs, invoked, ports')

/-- `handleReceiveBytes(info)` (lines 29-32): accumulates
`bytesReceived += info.detail.byteLength`. -/
def handleReceiveBytes (byteLength : Nat) (s : ProtocolState) : ProtocolState :=
  { s with bytesReceived := s.bytesReceived + byteLength }

/-- `getConnectedPort()` (lines 34-36). -/
def getConnectedPort (s : ProtocolState) : Option String :=
  s.connectionId

/-- The read callback registered at lines 98-106, invoked by the transport
with either a data chunk (modelled by its byte length) or an error.  On
data it dispatches a "receive" event; dispatching synchronously runs
`handleReceiveBytes` when that listener is registered (line 95).  On an
error it only logs and returns. -/
def readCallback (chunk : Option Nat) (s : ProtocolState) :
    ProtocolState × List Event :=
  match chunk with
  | some byteLength =>
    let s' := if s.receiveListener then handleReceiveBytes byteLength s else s
    (s', [Event.receive byteLength])
  | none => (s, [])

/-- `connect(path, options)` (lines 83-112).  `openOk` is the outcome of
`Serial.openConnection`.  On failure: dispatch `connect(false)`, return
`false`, state untouched.  On success: set `isOpen` and `connectionId`,
register the "receive" listener and the transport read callback, dispatch
`connect(true)`, return `true`.  (Read-registration errors surface through
the callback's `error` argument, not as a rejection; see module comment.) -/
def connect (openOk : Bool) (path : String) (s : ProtocolState) :
    ProtocolState × List Event × Bool :=
  if openOk then
    ({ s with isOpen := true, connectionId := some path,
              receiveListener := true, readCallback := true },
     [Event.connectEv true], true)
  else
    (s, [Event.connectEv false], false)

/-- `send(data, callback)` (lines 140-151).  `writeOk` is the outcome of
`Serial.write({data})`; `byteLength` is `data.byteLength`.  Output: the
(unchanged) state, whether `Serial.write` was invoked, the `bytesSent`
value passed to the callback (when a callback is supplied), and the
returned boolean. -/
def send (writeOk : Bool) (byteLength : Nat) (s : ProtocolState) :
    ProtocolState × Bool × Nat × Bool :=
  if writeOk then (s, true, byteLength, true)
  else (s, true, 0, false)

/-- `disconnect()` (lines 153-170).  `unregErr`/`closeErr` are the errors
thrown by `Serial.unregisterReadCallback()` / `Serial.closeConnection()`
(`none` = success); if unregistering throws, the close is never attempted.
The `finally` block always sets `isOpen := false` and `port := null` and
dispatches `disconnect(true)`; afterwards a recorded error is re-thrown
wrapped as `Error("Failed to close serial port", { cause })`.  Output:
new state, events, and the wrapped error if the promise rejects. -/
def disconnect (unregErr closeErr : Option JsError) (s : ProtocolState) :
    ProtocolState × List Event × Option WrappedError :=
  if s.isOpen then
    let s1 := { s with reading := false }
    let (s2, closeError) :=
      match unregErr with
      | some e => (s1, some e)
      | none =>
        let sA := { s1 with readCallback := false }
        match closeErr with
        | some e => (sA, some e)
        | none => (sA, none)
    let s3 := { s2 with isOpen := false, port := none }
    (s3, [Event.disconnectEv true],
     closeError.map fun e => { message := "Failed to close serial port", cause := e })
  else
    (s, [], none)

/-- Iterated external `handleNewDevice` calls (the API surface named
`addDevice` by the spec): a thrown `TypeError` propagates to the caller
before any mutation, so the registry is unchanged on that call. -/
def runAdds (vn : Nat → Option String) :
    List (Nat × Nat) → List (Option Port) → List (Option Port)
  | [], ports => ports
  | (vid, pid) :: rest, ports =>
    match handleNewDevice vn vid pid ports with
    | .error _ => runAdds vn rest ports
    | .ok (ports', _, _) => runAdds vn rest ports'

/-- Two registry entries are both real descriptors with the same
`(vendorId, productId)` pair. -/
def pairClash (a b : Option Port) : Bool :=
  match a, b with
  | some p, some q => decide (p.vendorId = q.vendorId ∧ p.productId = q.productId)
  | _, _ => false

/-- No two non-null registry entries share a `(vendorId, productId)` pair. -/
abbrev NoDupPairs (ports : List (Option Port)) : Prop :=
  List.Pairwise (fun a b => pairClash a b = false) ports

/-- An event is not an "addedDevice" notification carrying `null`. -/
def eventNonNullAdd : Event → Bool
  | Event.addedDevice none => false
  | _ => true

/-- A concrete descriptor, as `createPort` builds it for `(1, 2)` with an
empty vendor table. -/
def samplePort12 : Port :=
  { path := "serial", displayName := "Betaflight VID:1 PID:2",
    vendorId := 1, productId := 2 }

/-- The behaviour of one run of the permission loop started at absolute
position `i`: the returned boolean is `true` exactly when some remaining
candidate is granted; a position is probed exactly when it lies in the
remaining window and no strictly earlier position (from `i` on) was
granted; exhausting the whitelist grant-free leaves the registry untouched
and returns `false`; and the first granted candidate is registered exactly
when its pair is not yet present.  (Stated for a registry with non-null
entries only; a null entry makes the in-loop duplicate scan throw, which
the loop's `catch` turns into a silent skip.) -/
def LoopSpec (vn : Nat → Option String) (perm : Nat → PermOutcome)
    (wl : List (Nat × Nat)) (i : Nat) (ports : List (Option Port)) : Prop :=
  ((requestPermLoop vn perm wl i ports).2.2.2 = true
    ↔ ∃ j, j < wl.length ∧ perm (i + j) = PermOutcome.granted)
  ∧ (∀ m, m ∈ (requestPermLoop vn perm wl i ports).2.2.1
      ↔ i ≤ m ∧ m < i + wl.length
        ∧ ∀ k, i ≤ k → k < m → perm k ≠ PermOutcome.granted)
  ∧ ((∀ j, j < wl.length → perm (i + j) ≠ PermOutcome.granted) →
      (requestPermLoop vn perm wl i ports).1 = ports
      ∧ (requestPermLoop vn perm wl i ports).2.1 = []
      ∧ (requestPermLoop vn perm wl i ports).2.2.2 = false)
  ∧ (∀ j vid pid, wl[j]? = some (vid, pid)
      → perm (i + j) = PermOutcome.granted
      → (∀ k, k < j → perm (i + k) ≠ PermOutcome.granted) →
      (requestPermLoop vn perm wl i ports).2.2.2 = true
      ∧ (someMatch vid pid ports = .ok true →
          (requestPermLoop vn perm wl i ports).1 = ports
          ∧ (requestPermLoop vn perm wl i ports).2.1 = [])
      ∧ (someMatch vid pid ports = .ok false →
          (requestPermLoop vn perm wl i ports).1
              = ports ++ [some (newPort vn vid pid)]
          ∧ (requestPermLoop vn perm wl i ports).2.1
              = [Event.addedDevice (some (newPort vn vid pid))]))

/-!  Theorems. -/

/-- C1: evaluating `disconnect` at the claim's failing scenario — an open
connection (`connectionId = "serial"`) whose `closeConnection` throws.
The `finally` cleanup does run before the rethrow (`isOpen` is reset, the
`disconnect(true)` event is emitted, and the error is re-raised wrapped as
"Failed to close serial port" with the original error as `cause`), but the
code never clears `connectionId` — it nulls the never-used `port` field
instead — so the claimed "clears connectionId" fails. -/
theorem C1_disconnect_close_throw_eval :
    disconnect none (some (JsError.sample 7)) (connect true "serial" initState).1
      = ({ initState with
            isOpen := false
            connectionId := some "serial"
            receiveListener := true
            readCallback := false },
         [Event.disconnectEv true],
         some { message := "Failed to close serial port",
                cause := JsError.sample 7 }) := rfl

/-- C2: the invariant `connectionId is set ↔ isOpen` holds initially and
after a successful `connect`, but `disconnect` (here with the transport
close succeeding) leaves `connectionId = some "serial"` while
`isOpen = false`, violating the invariant. -/
theorem C2_invariant_violated_after_disconnect :
    (initState.connectionId.isSome = initState.isOpen)
    ∧ ((connect true "serial" initState).1.connectionId.isSome
        = (connect true "serial" initState).1.isOpen)
    ∧ ((disconnect none none (connect true "serial" initState).1).1.isOpen = false)
    ∧ ((disconnect none none (connect true "serial" initState).1).1.connectionId
        = some "serial")
    ∧ ((disconnect none none (connect true "serial" initState).1).1.connectionId.isSome
        ≠ (disconnect none none (connect true "serial" initState).1).1.isOpen) := by
  refine ⟨rfl, rfl, rfl, rfl, ?_⟩
  decide

/-- C4: `connect` called from the `Closed` state.  When the transport open
fails it leaves the state unchanged (hence still closed), emits
`connect(false)` and returns `false`.  When it succeeds it sets
`isOpen = true`, `connectionId = path`, registers the "receive" listener
and the transport read callback, emits `connect(true)` and returns `true`;
afterwards each received chunk of `n` bytes increments `bytesReceived` by
`n` and re-emits a `receive` notification. -/
theorem C4_connect_behavior (path : String) (s : ProtocolState)
    (hOpen : s.isOpen = false) (hId : s.connectionId = none) :
    (connect false path s = (s, [Event.connectEv false], false)
      ∧ (connect false path s).1.isOpen = false
      ∧ (connect false path s).1.connectionId = none)
    ∧ ((connect true path s).1.isOpen = true
      ∧ (connect true path s).1.connectionId = some path
      ∧ (connect true path s).1.receiveListener = true
      ∧ (connect true path s).1.readCallback = true
      ∧ (connect true path s).2 = ([Event.connectEv true], true)
      ∧ ∀ n, readCallback (some n) (connect true path s).1
          = ({ (connect true path s).1 with
                bytesReceived := (connect true path s).1.bytesReceived + n },
             [Event.receive n])) :=
  ⟨⟨rfl, hOpen, hId⟩, rfl, rfl, rfl, rfl, rfl, fun _ => rfl⟩

/-- C4 witness: the theorem applied to the initial state and path "serial". -/
theorem C4_connect_behavior_witness :
    (connect true "serial" initState).1.isOpen = true
    ∧ (connect true "serial" initState).1.connectionId = some "serial"
    ∧ connect false "serial" initState = (initState, [Event.connectEv false], false)
    ∧ readCallback (some 5) (connect true "serial" initState).1
        = ({ (connect true "serial" initState).1 with bytesReceived := 5 },
           [Event.receive 5]) :=
  ⟨(C4_connect_behavior "serial" initState rfl rfl).2.1,
   (C4_connect_behavior "serial" initState rfl rfl).2.2.1,
   (C4_connect_behavior "serial" initState rfl rfl).1.1,
   (C4_connect_behavior "serial" initState rfl rfl).2.2.2.2.2.2 5⟩

/-- C5: `getDevices` with a non-empty registry returns the cached ordered
collection unchanged, emits nothing, and does not invoke the permission
negotiator (`requestPermissionDevice`). -/
theorem C5_getDevices_cached (vn : Nat → Option String) (perm : Nat → PermOutcome)
    (wl : List (Nat × Nat)) (ports : List (Option Port)) (h : ports ≠ []) :
    getDevices vn perm wl ports = (ports, [], false, ports) := by
  have hlen : 0 < ports.length := List.length_pos.mpr h
  simp [getDevices, loadDevices, hlen]

/-- C5 witness: a singleton registry is returned as-is with the negotiator
flag `false`, even though the transport would grant every candidate. -/
theorem C5_getDevices_cached_witness :
    getDevices (fun _ => none) (fun _ => PermOutcome.granted) [(3, 4)]
        [some samplePort12]
      = ([some samplePort12], [], false, [some samplePort12]) :=
  C5_getDevices_cached _ _ _ _ (by decide)

/-- C7: `send` returns `true` and passes the data's byte length to the
callback when the transport write succeeds, returns `false` and passes `0`
when it fails, and in both cases leaves the controller state (in
particular `bytesSent`) untouched. -/
theorem C7_send_callback_and_result (byteLength : Nat) (s : ProtocolState) :
    send true byteLength s = (s, true, byteLength, true)
    ∧ send false byteLength s = (s, true, 0, false) :=
  ⟨rfl, rfl⟩

/-- C10: `send` performs no open-state guard: in every state (closed ones
included) it invokes the transport write, and its callback argument and
return value agree between any two states — they depend only on the write
outcome and the data's byte length; the state is returned unchanged. -/
theorem C10_send_ignores_state (writeOk : Bool) (byteLength : Nat)
    (s t : ProtocolState) :
    (send writeOk byteLength s).2.1 = true
    ∧ (send writeOk byteLength s).2 = (send writeOk byteLength t).2
    ∧ (send writeOk byteLength s).1 = s := by
  cases writeOk <;> exact ⟨rfl, rfl, rfl⟩

/-- C3 counterexample: calling `handleNewDevice` with a pair already in
the registry returns `null` as claimed, but does NOT leave the registry
unchanged and does NOT stay silent: it appends `null` to the registry and
emits an "addedDevice" notification carrying `null`. -/
theorem C3_duplicate_mutates_and_notifies :
    handleNewDevice (fun _ => none) 1 2 [some samplePort12]
      = .ok ([some samplePort12, none], [Event.addedDevice none], none)
    ∧ [some samplePort12, none] ≠ [some samplePort12]
    ∧ [Event.addedDevice (none : Option Port)] ≠ ([] : List Event) :=
  ⟨rfl, by decide, by decide⟩

/-- A successful (non-throwing) `someMatch` scan that found no match means
every scanned entry is a real descriptor with a different pair. -/
theorem someMatch_ok_false_all (vid pid : Nat) :
    ∀ ports : List (Option Port), someMatch vid pid ports = .ok false →
      ∀ x ∈ ports, ∃ p : Port, x = some p
        ∧ ¬(p.vendorId = vid ∧ p.productId = pid)
  | [], _, x, hx => absurd hx (List.not_mem_nil x)
  | none :: _, h, _, _ => by simp [someMatch] at h
  | some q :: rest, h, x, hx => by
    by_cases hq : q.vendorId = vid ∧ q.productId = pid
    · simp [someMatch, hq] at h
    · rcases List.mem_cons.mp hx with rfl | hx'
      · exact ⟨q, rfl, hq⟩
      · have h' : someMatch vid pid rest = .ok false := by
          simpa [someMatch, hq] using h
        exact someMatch_ok_false_all vid pid rest h' x hx'

/-- A registry without `null` entries is scanned without throwing. -/
theorem someMatch_ok_of_no_null (vid pid : Nat) :
    ∀ ports : List (Option Port), (∀ x ∈ ports, x ≠ none) →
      ∃ b, someMatch vid pid ports = .ok b
  | [], _ => ⟨false, rfl⟩
  | none :: _, h => absurd rfl (h none (List.mem_cons_self _ _))
  | some q :: rest, h => by
    by_cases hq : q.vendorId = vid ∧ q.productId = pid
    · exact ⟨true, by simp [someMatch, hq]⟩
    · obtain ⟨b, hb⟩ := someMatch_ok_of_no_null vid pid rest
        (fun x hx => h x (List.mem_cons_of_mem _ hx))
      exact ⟨b, by simp [someMatch, hq, hb]⟩

theorem createPort_some_of_not_found (vn : Nat → Option String) (vid pid : Nat)
    (ports : List (Option Port)) (h : someMatch vid pid ports = .ok false) :
    createPort vn vid pid ports = .ok (some (newPort vn vid pid)) := by
  unfold createPort
  rw [h]

/-- The two ways a `handleNewDevice` call can return normally: the pair was
already present (a `null` is pushed and announced), or it was new (the
fresh descriptor is pushed and announced). -/
theorem handleNewDevice_cases (vn : Nat → Option String) (vid pid : Nat)
    (ports ports' : List (Option Port)) (evs : List Event) (res : Option Port)
    (hstep : handleNewDevice vn vid pid ports = .ok (ports', evs, res)) :
    (someMatch vid pid ports = .ok true ∧ ports' = ports ++ [none]
      ∧ evs = [Event.addedDevice none] ∧ res = none)
    ∨ (someMatch vid pid ports = .ok false ∧ ∃ d : Port,
        d.vendorId = vid ∧ d.productId = pid
        ∧ ports' = ports ++ [some d] ∧ evs = [Event.addedDevice (some d)]
        ∧ res = some d) := by
  unfold handleNewDevice createPort at hstep
  cases hsm : someMatch vid pid ports with
  | error e => rw [hsm] at hstep; cases hstep
  | ok b =>
    rw [hsm] at hstep
    cases b with
    | true =>
      simp only [Except.ok.injEq, Prod.mk.injEq] at hstep
      exact Or.inl ⟨rfl, hstep.1.symm, hstep.2.1.symm, hstep.2.2.symm⟩
    | false =>
      simp only [Except.ok.injEq, Prod.mk.injEq] at hstep
      exact Or.inr ⟨rfl, _, rfl, rfl, hstep.1.symm, hstep.2.1.symm, hstep.2.2.symm⟩

theorem noDupPairs_append_none {ports : List (Option Port)}
    (h : NoDupPairs ports) : NoDupPairs (ports ++ [none]) := by
  rw [NoDupPairs, List.pairwise_append]
  refine ⟨h, List.pairwise_singleton _ _, ?_⟩
  intro a _ b hb
  simp only [List.mem_singleton] at hb
  subst hb
  cases a <;> rfl

theorem noDupPairs_append_new {ports : List (Option Port)} (d : Port)
    (h : NoDupPairs ports)
    (hfresh : ∀ x ∈ ports, ∀ p : Port, x = some p →
      ¬(p.vendorId = d.vendorId ∧ p.productId = d.productId)) :
    NoDupPairs (ports ++ [some d]) := by
  rw [NoDupPairs, List.pairwise_append]
  refine ⟨h, List.pairwise_singleton _ _, ?_⟩
  intro a ha b hb
  simp only [List.mem_singleton] at hb
  subst hb
  cases a with
  | none => rfl
  | some p =>
    have hp := hfresh _ ha p rfl
    simp only [pairClash]
    exact decide_eq_false hp

theorem noDupPairs_handleNewDevice (vn : Nat → Option String) (vid pid : Nat)
    {ports ports' : List (Option Port)} {evs : List Event} {res : Option Port}
    (h : NoDupPairs ports)
    (hstep : handleNewDevice vn vid pid ports = .ok (ports', evs, res)) :
    NoDupPairs ports' := by
  rcases handleNewDevice_cases vn vid pid ports ports' evs res hstep with
    ⟨_, hp, _, _⟩ | ⟨hsm, d, hdv, hdp, hp, _, _⟩
  · subst hp; exact noDupPairs_append_none h
  · subst hp
    refine noDupPairs_append_new d h ?_
    intro x hx p hxp
    obtain ⟨p', hp', hne⟩ := someMatch_ok_false_all vid pid ports hsm x hx
    rw [hxp] at hp'
    injection hp' with hpe
    subst hpe
    rw [hdv, hdp]
    exact hne

/-- The registry-uniqueness invariant survives any sequence of external
`handleNewDevice` calls. -/
theorem noDupPairs_runAdds (vn : Nat → Option String) :
    ∀ (seq : List (Nat × Nat)) (ports : List (Option Port)),
      NoDupPairs ports → NoDupPairs (runAdds vn seq ports)
  | [], _, h => h
  | (vid, pid) :: rest, ports, h => by
    unfold runAdds
    cases hstep : handleNewDevice vn vid pid ports with
    | error e => exact noDupPairs_runAdds vn rest ports h
    | ok out =>
      obtain ⟨ports', evs, res⟩ := out
      exact noDupPairs_runAdds vn rest ports'
        (noDupPairs_handleNewDevice vn vid pid h hstep)

/-- C3 (amended): a duplicate `addDevice` call (`handleNewDevice`) does
return `null`, but it still appends that `null` to the registry and emits
an "addedDevice" notification carrying `null`; nevertheless, for every
sequence of `addDevice` calls starting from the empty registry, no two
non-null descriptors in the registry ever share a `(vendorId, productId)`
pair. -/
theorem C3_amended_registry_unique (vn : Nat → Option String)
    (seq : List (Nat × Nat)) (ports : List (Option Port)) (vid pid : Nat)
    (hdup : someMatch vid pid ports = .ok true) :
    handleNewDevice vn vid pid ports
      = .ok (ports ++ [none], [Event.addedDevice none], none)
    ∧ NoDupPairs (runAdds vn seq []) := by
  constructor
  · unfold handleNewDevice createPort
    rw [hdup]
  · exact noDupPairs_runAdds vn seq [] List.Pairwise.nil

/-- C3 (amended) witness: the duplicate branch taken at `(1, 2)` against a
registry already holding that pair, and the uniqueness invariant evaluated
on the call sequence `(1,2), (1,2), (3,4)`. -/
theorem C3_amended_registry_unique_witness :
    handleNewDevice (fun _ => none) 1 2 [some samplePort12]
      = .ok ([some samplePort12] ++ [none], [Event.addedDevice none], none)
    ∧ NoDupPairs (runAdds (fun _ => none) [(1, 2), (1, 2), (3, 4)] []) :=
  C3_amended_registry_unique (fun _ => none) [(1, 2), (1, 2), (3, 4)]
    [some samplePort12] 1 2 rfl

/-- Shifting the window of an existential over positions by one. -/
theorem exists_shift (P : Nat → Prop) (i n : Nat) (h0 : ¬ P i) :
    (∃ j, j < n + 1 ∧ P (i + j)) ↔ (∃ j, j < n ∧ P (i + 1 + j)) := by
  constructor
  · rintro ⟨j, hj, hp⟩
    cases j with
    | zero => exact absurd (by simpa using hp) h0
    | succ j' =>
      refine ⟨j', by omega, ?_⟩
      rwa [show i + (j' + 1) = i + 1 + j' by omega] at hp
  · rintro ⟨j, hj, hp⟩
    refine ⟨j + 1, by omega, ?_⟩
    rwa [show i + (j + 1) = i + 1 + j by omega]

/-- `LoopSpec` for the exhausted whitelist. -/
theorem loopSpec_nil (vn : Nat → Option String) (perm : Nat → PermOutcome)
    (i : Nat) (ports : List (Option Port)) : LoopSpec vn perm [] i ports := by
  unfold LoopSpec requestPermLoop
  refine ⟨by simp, ?_, fun _ => ⟨rfl, rfl, rfl⟩, ?_⟩
  · intro m
    constructor
    · intro hm; exact absurd hm (List.not_mem_nil m)
    · rintro ⟨h1, h2, -⟩
      rw [List.length_nil] at h2
      exact absurd h2 (by omega)
  · intro j vid pid hj
    simp at hj

/-- `LoopSpec` is preserved when the head candidate throws or is denied:
the loop marks it probed and continues. -/
theorem loopSpec_skip (vn : Nat → Option String) (perm : Nat → PermOutcome)
    (i : Nat) (ports : List (Option Port)) (wl : List (Nat × Nat))
    (vid pid : Nat)
    (hne : perm i ≠ PermOutcome.granted)
    (hstep : requestPermLoop vn perm ((vid, pid) :: wl) i ports
        = consProbe i (requestPermLoop vn perm wl (i + 1) ports))
    (IH : LoopSpec vn perm wl (i + 1) ports) :
    LoopSpec vn perm ((vid, pid) :: wl) i ports := by
  obtain ⟨IH1, IH2, IH3, IH4⟩ := IH
  unfold LoopSpec
  rw [hstep]
  simp only [consProbe, List.length_cons]
  refine ⟨?_, ?_, ?_, ?_⟩
  · exact IH1.trans
      (exists_shift (fun m => perm m = PermOutcome.granted) i wl.length hne).symm
  · intro m
    rw [List.mem_cons, IH2 m]
    constructor
    · rintro (rfl | ⟨h1, h2, h3⟩)
      · exact ⟨Nat.le_refl m, by omega, fun k hk1 hk2 _ => by omega⟩
      · refine ⟨by omega, by omega, ?_⟩
        intro k hk1 hk2
        rcases Nat.eq_or_lt_of_le hk1 with rfl | hlt
        · exact hne
        · exact h3 k hlt hk2
    · rintro ⟨h1, h2, h3⟩
      rcases Nat.eq_or_lt_of_le h1 with rfl | hlt
      · exact Or.inl rfl
      · exact Or.inr ⟨hlt, by omega, fun k hk1 hk2 => h3 k (by omega) hk2⟩
  · intro hall
    exact IH3 (fun j hj => by
      have := hall (j + 1) (by omega)
      rwa [show i + (j + 1) = i + 1 + j by omega] at this)
  · intro j vid' pid' hj hg hfirst
    cases j with
    | zero =>
      rw [Nat.add_zero] at hg
      exact absurd hg hne
    | succ j' =>
      rw [List.getElem?_cons_succ] at hj
      have hg' : perm (i + 1 + j') = PermOutcome.granted := by
        rwa [show i + 1 + j' = i + (j' + 1) by omega]
      have hfirst' : ∀ k, k < j' → perm (i + 1 + k) ≠ PermOutcome.granted := by
        intro k hk
        have := hfirst (k + 1) (by omega)
        rwa [show i + (k + 1) = i + 1 + k by omega] at this
      exact IH4 j' vid' pid' hj hg' hfirst'

/-- `LoopSpec` when the head candidate is granted and already registered:
the loop stops at once without registering. -/
theorem loopSpec_found_true (vn : Nat → Option String) (perm : Nat → PermOutcome)
    (wl : List (Nat × Nat)) (i : Nat) (ports : List (Option Port))
    (vid pid : Nat)
    (hg : perm i = PermOutcome.granted)
    (hsm : someMatch vid pid ports = .ok true)
    (hstep : requestPermLoop vn perm ((vid, pid) :: wl) i ports
        = (ports, [], [i], true)) :
    LoopSpec vn perm ((vid, pid) :: wl) i ports := by
  unfold LoopSpec
  rw [hstep]
  refine ⟨?_, ?_, ?_, ?_⟩
  · constructor
    · intro _
      refine ⟨0, ?_, by simpa using hg⟩
      rw [List.length_cons]
      omega
    · intro _
      rfl
  · intro m
    simp only [List.mem_singleton, List.length_cons]
    constructor
    · rintro rfl
      exact ⟨Nat.le_refl m, by omega, fun k hk1 hk2 _ => by omega⟩
    · rintro ⟨h1, -, h3⟩
      by_contra hmi
      exact h3 i (Nat.le_refl i) (by omega) hg
  · intro hall
    have h0 := hall 0 (by rw [List.length_cons]; omega)
    rw [Nat.add_zero] at h0
    exact absurd hg h0
  · intro j vid' pid' hj hg' hfirst
    have hj0 : j = 0 := by
      by_contra hjn
      have h0 := hfirst 0 (by omega)
      rw [Nat.add_zero] at h0
      exact absurd hg h0
    subst hj0
    rw [List.getElem?_cons_zero] at hj
    injection hj with hj'
    injection hj' with h1 h2
    subst h1
    subst h2
    refine ⟨rfl, fun _ => ⟨rfl, rfl⟩, fun hsm' => ?_⟩
    rw [hsm] at hsm'
    simp at hsm'

/-- `LoopSpec` when the head candidate is granted and new: the loop
registers it and stops. -/
theorem loopSpec_found_new (vn : Nat → Option String) (perm : Nat → PermOutcome)
    (wl : List (Nat × Nat)) (i : Nat) (ports : List (Option Port))
    (vid pid : Nat)
    (hg : perm i = PermOutcome.granted)
    (hsm : someMatch vid pid ports = .ok false)
    (hstep : requestPermLoop vn perm ((vid, pid) :: wl) i ports
        = (ports ++ [some (newPort vn vid pid)],
           [Event.addedDevice (some (newPort vn vid pid))], [i], true)) :
    LoopSpec vn perm ((vid, pid) :: wl) i ports := by
  unfold LoopSpec
  rw [hstep]
  refine ⟨?_, ?_, ?_, ?_⟩
  · constructor
    · intro _
      refine ⟨0, ?_, by simpa using hg⟩
      rw [List.length_cons]
      omega
    · intro _
      rfl
  · intro m
    simp only [List.mem_singleton, List.length_cons]
    constructor
    · rintro rfl
      exact ⟨Nat.le_refl m, by omega, fun k hk1 hk2 _ => by omega⟩
    · rintro ⟨h1, -, h3⟩
      by_contra hmi
      exact h3 i (Nat.le_refl i) (by omega) hg
  · intro hall
    have h0 := hall 0 (by rw [List.length_cons]; omega)
    rw [Nat.add_zero] at h0
    exact absurd hg h0
  · intro j vid' pid' hj hg' hfirst
    have hj0 : j = 0 := by
      by_contra hjn
      have h0 := hfirst 0 (by omega)
      rw [Nat.add_zero] at h0
      exact absurd hg h0
    subst hj0
    rw [List.getElem?_cons_zero] at hj
    injection hj with hj'
    injection hj' with h1 h2
    subst h1
    subst h2
    refine ⟨rfl, fun hsm' => ?_, fun _ => ⟨rfl, rfl⟩⟩
    rw [hsm] at hsm'
    simp at hsm'

/-- The permission loop satisfies `LoopSpec` from any start position,
whenever the registry has no null entries. -/
theorem requestPermLoop_spec (vn : Nat → Option String) (perm : Nat → PermOutcome) :
    ∀ (wl : List (Nat × Nat)) (i : Nat) (ports : List (Option Port)),
      (∀ x ∈ ports, x ≠ none) → LoopSpec vn perm wl i ports
  | [], i, ports, _ => loopSpec_nil vn perm i ports
  | (vid, pid) :: rest, i, ports, h => by
    have IH := requestPermLoop_spec vn perm rest (i + 1) ports h
    cases hperm : perm i with
    | throws =>
      refine loopSpec_skip vn perm i ports rest vid pid ?_ ?_ IH
      · rw [hperm]; decide
      · simp only [requestPermLoop, hperm]
    | denied =>
      refine loopSpec_skip vn perm i ports rest vid pid ?_ ?_ IH
      · rw [hperm]; decide
      · simp only [requestPermLoop, hperm]
    | granted =>
      obtain ⟨b, hsm⟩ := someMatch_ok_of_no_null vid pid ports h
      cases b with
      | true =>
        refine loopSpec_found_true vn perm rest i ports vid pid hperm hsm ?_
        simp only [requestPermLoop, hperm, hsm]
      | false =>
        have hnd : handleNewDevice vn vid pid ports
            = .ok (ports ++ [some (newPort vn vid pid)],
                   [Event.addedDevice (some (newPort vn vid pid))],
                   some (newPort vn vid pid)) := by
          unfold handleNewDevice
          rw [createPort_some_of_not_found vn vid pid ports hsm]
        refine loopSpec_found_new vn perm rest i ports vid pid hperm hsm ?_
        simp only [requestPermLoop, hperm, hsm, hnd]



/-- C6: `requestPermissionDevice` over a null-free registry: it returns
`true` iff some whitelist candidate is granted (so `false` exactly when the
whitelist is exhausted grant-free, leaving the registry untouched); a
candidate is probed iff no strictly earlier candidate was granted — a
throwing candidate is skipped silently and iteration stops at the first
grant without probing later candidates; and the first granted candidate is
registered via `handleNewDevice` exactly when its pair is not already
present. -/
theorem C6_requestAccess_first_grant (vn : Nat → Option String)
    (perm : Nat → PermOutcome) (wl : List (Nat × Nat))
    (ports : List (Option Port)) (h : ∀ x ∈ ports, x ≠ none) :
    ((requestPermissionDevice vn perm wl ports).2.2.2 = true
      ↔ ∃ j, j < wl.length ∧ perm j = PermOutcome.granted)
    ∧ (∀ m, m ∈ (requestPermissionDevice vn perm wl ports).2.2.1
        ↔ m < wl.length ∧ ∀ k, k < m → perm k ≠ PermOutcome.granted)
    ∧ ((∀ j, j < wl.length → perm j ≠ PermOutcome.granted) →
        (requestPermissionDevice vn perm wl ports).1 = ports
        ∧ (requestPermissionDevice vn perm wl ports).2.1 = []
        ∧ (requestPermissionDevice vn perm wl ports).2.2.2 = false)
    ∧ (∀ j vid pid, wl[j]? = some (vid, pid)
        → perm j = PermOutcome.granted
        → (∀ k, k < j → perm k ≠ PermOutcome.granted) →
        (requestPermissionDevice vn perm wl ports).2.2.2 = true
        ∧ (someMatch vid pid ports = .ok true →
            (requestPermissionDevice vn perm wl ports).1 = ports
            ∧ (requestPermissionDevice vn perm wl ports).2.1 = [])
        ∧ (someMatch vid pid ports = .ok false →
            (requestPermissionDevice vn perm wl ports).1
                = ports ++ [some (newPort vn vid pid)]
            ∧ (requestPermissionDevice vn perm wl ports).2.1
                = [Event.addedDevice (some (newPort vn vid pid))])) := by
  obtain ⟨s1, s2, s3, s4⟩ := requestPermLoop_spec vn perm wl 0 ports h
  refine ⟨?_, ?_, ?_, ?_⟩
  · simpa [requestPermissionDevice] using s1
  · intro m
    have h2 := s2 m
    simpa [requestPermissionDevice] using h2
  · intro hall
    exact s3 (fun j hj => by simpa using hall j hj)
  · intro j vid pid hj hg hfirst
    exact s4 j vid pid hj (by simpa using hg)
      (fun k hk => by simpa using hfirst k hk)

/-- C6 witness: whitelist `[(5,6), (1,2)]` where candidate 0 throws and
candidate 1 is granted: the call returns `true` and registers `(1,2)`. -/
theorem C6_requestAccess_first_grant_witness :
    (requestPermissionDevice (fun _ => none)
        (fun i => if i = 0 then PermOutcome.throws else PermOutcome.granted)
        [(5, 6), (1, 2)] []).2.2.2 = true
    ∧ (requestPermissionDevice (fun _ => none)
        (fun i => if i = 0 then PermOutcome.throws else PermOutcome.granted)
        [(5, 6), (1, 2)] []).1 = [] ++ [some (newPort (fun _ => none) 1 2)] := by
  have hc := C6_requestAccess_first_grant (fun _ => none)
      (fun i => if i = 0 then PermOutcome.throws else PermOutcome.granted)
      [(5, 6), (1, 2)] [] (fun x hx => absurd hx (List.not_mem_nil x))
  have h4 := hc.2.2.2 1 1 2 rfl rfl
      (fun k hk => by
        have hk0 : k = 0 := by omega
        subst hk0
        decide)
  exact ⟨h4.1, (h4.2.2 rfl).1⟩

/-- Discovery never pushes a `null`: every registry extension made by the
permission loop is a real descriptor, and every "addedDevice" event it
emits carries one. -/
theorem requestPermLoop_no_null_adds (vn : Nat → Option String)
    (perm : Nat → PermOutcome) :
    ∀ (wl : List (Nat × Nat)) (i : Nat) (ports : List (Option Port)),
      ((requestPermLoop vn perm wl i ports).2.1.all eventNonNullAdd = true)
      ∧ ((requestPermLoop vn perm wl i ports).1 = ports
        ∨ ∃ d : Port, (requestPermLoop vn perm wl i ports).1 = ports ++ [some d])
  | [], _, _ => ⟨rfl, Or.inl rfl⟩
  | (vid, pid) :: rest, i, ports => by
    have IH := requestPermLoop_no_null_adds vn perm rest (i + 1) ports
    cases hperm : perm i with
    | throws =>
      have hstep : requestPermLoop vn perm ((vid, pid) :: rest) i ports
          = consProbe i (requestPermLoop vn perm rest (i + 1) ports) := by
        simp only [requestPermLoop, hperm]
      rw [hstep]
      exact IH
    | denied =>
      have hstep : requestPermLoop vn perm ((vid, pid) :: rest) i ports
          = consProbe i (requestPermLoop vn perm rest (i + 1) ports) := by
        simp only [requestPermLoop, hperm]
      rw [hstep]
      exact IH
    | granted =>
      cases hsm : someMatch vid pid ports with
      | error e =>
        have hstep : requestPermLoop vn perm ((vid, pid) :: rest) i ports
            = consProbe i (requestPermLoop vn perm rest (i + 1) ports) := by
          simp only [requestPermLoop, hperm, hsm]
        rw [hstep]
        exact IH
      | ok b =>
        cases b with
        | true =>
          have hstep : requestPermLoop vn perm ((vid, pid) :: rest) i ports
              = (ports, [], [i], true) := by
            simp only [requestPermLoop, hperm, hsm]
          rw [hstep]
          exact ⟨rfl, Or.inl rfl⟩
        | false =>
          have hnd : handleNewDevice vn vid pid ports
              = .ok (ports ++ [some (newPort vn vid pid)],
                     [Event.addedDevice (some (newPort vn vid pid))],
                     some (newPort vn vid pid)) := by
            unfold handleNewDevice
            rw [createPort_some_of_not_found vn vid pid ports hsm]
          have hstep : requestPermLoop vn perm ((vid, pid) :: rest) i ports
              = (ports ++ [some (newPort vn vid pid)],
                 [Event.addedDevice (some (newPort vn vid pid))], [i], true) := by
            simp only [requestPermLoop, hperm, hsm, hnd]
          rw [hstep]
          exact ⟨rfl, Or.inr ⟨newPort vn vid pid, rfl⟩⟩

/-- C9: along the public discovery path (`requestPermissionDevice`), the
duplicate check at line 126 precedes every `handleNewDevice` call, so
discovery never appends `null` to the registry (it appends at most one
real descriptor) and every "addedDevice" notification it emits carries a
non-null descriptor: `createPort`'s null-returning duplicate branch is
unreachable from this path. -/
theorem C9_discovery_never_adds_null (vn : Nat → Option String)
    (perm : Nat → PermOutcome) (wl : List (Nat × Nat))
    (ports : List (Option Port)) :
    ((requestPermissionDevice vn perm wl ports).2.1.all eventNonNullAdd = true)
    ∧ ((requestPermissionDevice vn perm wl ports).1 = ports
      ∨ ∃ d : Port,
          (requestPermissionDevice vn perm wl ports).1 = ports ++ [some d]) :=
  requestPermLoop_no_null_adds vn perm wl 0 ports


/-- C8 counterexample: with a vendor table that has no entry for
vendorId 1, the descriptor built for `(1, 2)` has
`displayName = "Betaflight VID:1 PID:2"`, which is NOT the claimed
fallback label `VID:1 PID:2`: every display name is prefixed with
"Betaflight ". -/
theorem C8_displayName_not_lookup_or_fallback :
    createPort (fun _ => none) 1 2 [] = .ok (some samplePort12)
    ∧ samplePort12.displayName ≠ vidPidLabel 1 2
    ∧ (fun _ => (none : Option String)) 1 = none :=
  ⟨rfl, by decide, rfl⟩

/-- C8 (amended): every descriptor built by `createPort` has
`path = "serial"`, carries its pair, and has a `displayName` equal to
"Betaflight " followed by the vendor table's entry for its vendorId, or by
the fallback `VID:x PID:y` label when the entry is missing or empty. -/
theorem C8_amended_displayName (vn : Nat → Option String) (vid pid : Nat)
    (ports : List (Option Port)) (p : Port)
    (hp : createPort vn vid pid ports = .ok (some p)) :
    p.path = "serial"
    ∧ p.vendorId = vid ∧ p.productId = pid
    ∧ (∀ n, vn vid = some n → n ≠ "" → p.displayName = "Betaflight " ++ n)
    ∧ (vn vid = none → p.displayName = "Betaflight " ++ vidPidLabel vid pid)
    ∧ (vn vid = some "" → p.displayName = "Betaflight " ++ vidPidLabel vid pid) := by
  unfold createPort at hp
  cases hsm : someMatch vid pid ports with
  | error e => rw [hsm] at hp; cases hp
  | ok b =>
    rw [hsm] at hp
    cases b with
    | true => simp at hp
    | false =>
      simp only [Except.ok.injEq, Option.some.injEq] at hp
      subst hp
      refine ⟨rfl, rfl, rfl, ?_, ?_, ?_⟩
      · intro n hn hne
        simp [newPort, hn, hne]
      · intro hn
        simp [newPort, hn]
      · intro hn
        simp [newPort, hn]

/-- C8 (amended) witness: the theorem applied to the descriptor built
for `(1, 2)` under the empty vendor table. -/
theorem C8_amended_displayName_witness :
    samplePort12.path = "serial"
    ∧ samplePort12.displayName = "Betaflight " ++ vidPidLabel 1 2 :=
  ⟨(C8_amended_displayName (fun _ => none) 1 2 [] samplePort12 rfl).1,
   (C8_amended_displayName (fun _ => none) 1 2 [] samplePort12 rfl).2.2.2.2.1 rfl⟩

end CapacitorSerial
